import Mathlib

/-
Shallow embedding of the doplarr_rs core (src/doplarr/src/providers/mod.rs,
src/doplarr/src/discord.rs, src/doplarr/src/main.rs,
src/doplarr/src/providers/radarr.rs), together with theorems settling the
spec claims about the detail-collection protocol, the interaction loop, the
session registry and the error sanitization layer.

Rust strings are modelled as Lean `String` where only whole-string operations
occur, and as `List Char` where the Rust code does byte-indexed slicing
(`String` in Rust is UTF-8 bytes; `byteLen` below is Rust's `str::len`).
Machine integers (`usize` indices, vector lengths) are modelled as `Nat`;
the indices in play are tiny so overflow is not reachable and is not modelled.
Fallible Rust code (`expect`, panicking `Vec::remove`, panicking byte slicing)
is modelled with `Option`, `none` standing for a panic.
-/

namespace Doplarr

/-! ## Data model (src/doplarr/src/providers/mod.rs) -/

/-- The ways a backend captures a unique id for a menu selection
(`providers/mod.rs`, `enum SelectableId`). -/
inductive SelectableId where
  | Integer (i : Int)
  | String (s : String)
  | Boolean (b : Bool)
deriving DecidableEq, Repr

/-- One entry of a dropdown (`providers/mod.rs`, `struct DropdownOption`). -/
structure DropdownOption where
  title : String
  description : Option String
  id : Option SelectableId
deriving DecidableEq, Repr

/-- Type of field for a request detail (`providers/mod.rs`, `enum FieldType`). -/
inductive FieldType where
  | Dropdown
  | Boolean
deriving DecidableEq, Repr

/-- Additional details needed to complete a request
(`providers/mod.rs`, `struct RequestDetails`). -/
structure RequestDetails where
  title : String
  options : List DropdownOption
  metadata : Option String
  field_type : FieldType
deriving DecidableEq, Repr

/-- The media selection box data (`providers/mod.rs`, `struct MediaDisplayInfo`).
The `description` is kept as `List Char` because `build_request_component`
slices it at a byte index; the other fields are only passed through whole. -/
structure MediaDisplayInfo where
  title : String
  subtitle : Option String
  description : Option (List Char)
  thumbnail_url : Option String
deriving DecidableEq, Repr

/-- The two fields of `MessageComponentInteractionData` that
`run_interaction` reads from a continuation event: the component's
`custom_id` and the selected `values`. -/
structure MessageComponentData where
  custom_id : String
  values : List String
deriving DecidableEq, Repr

/-! ## Detail-collection rendering (src/doplarr/src/discord.rs) -/

/-- Discord's maximum number of options in a dropdown menu
(`discord.rs`, `MAX_DROPDOWN_OPTIONS`, also `MAX_RESULTS` in
`run_interaction`). -/
def MAX_DROPDOWN_OPTIONS : Nat := 25

/-- Discord's maximum character length for text content in components
(`discord.rs`, `MAX_TEXT_CONTENT_LENGTH`). -/
def MAX_TEXT_CONTENT_LENGTH : Nat := 4000

/-- The user-selectable field set computed once in `run_interaction`
(discord.rs lines 484-489): metadata keys of the details that currently have
more than one option.  The source collects them into a `HashSet<String>`;
a `List String` queried with `contains` models the same membership test. -/
def selectableFields (details : List RequestDetails) : List String :=
  (details.filter (fun d => decide (1 < d.options.length))).filterMap
    (fun d => d.metadata)

/-- The `is_user_selectable` test inside `build_request_component`
(discord.rs lines 272-276): the detail's metadata key exists and is a member
of the user-selectable set. -/
def isUserSelectable (fields : List String) (d : RequestDetails) : Bool :=
  match d.metadata with
  | some m => fields.contains m
  | none => false

/-- The `selections_remaining` flag computed by the rendering loop of
`build_request_component` (discord.rs lines 268-307): set exactly when some
user-selectable detail still has more than one option. -/
def selectionsRemaining (fields : List String) (details : List RequestDetails) : Bool :=
  details.any (fun d => isUserSelectable fields d && decide (1 < d.options.length))

/-- Whether the Request button built at discord.rs lines 311-315 is enabled:
the source sets `.disabled(selections_remaining)`. -/
def submitEnabled (fields : List String) (details : List RequestDetails) : Bool :=
  !selectionsRemaining fields details

/-- How one detail is rendered by `build_request_component`. -/
inductive FieldRender where
  | chooser
  | completedText
  | hidden
deriving DecidableEq, Repr

/-- The per-detail rendering decision of `build_request_component`
(discord.rs lines 270-307): non-user-selectable details are skipped; a
user-selectable detail with more than one option becomes a dropdown; with
exactly one option it becomes review text; with zero options neither branch
fires and nothing is rendered. -/
def renderField (fields : List String) (d : RequestDetails) : FieldRender :=
  if !isUserSelectable fields d then .hidden
  else if 1 < d.options.length then .chooser
  else if d.options.length = 1 then .completedText
  else .hidden

/-! ## Search-result truncation (discord.rs lines 421-430) -/

/-- The truncation applied to search results in `run_interaction`:
`results.truncate(MAX_RESULTS)` is applied only when the list is longer than
25; `Vec::truncate` keeps the first elements in order. -/
def truncateResults {α : Type} (results : List α) : List α :=
  if MAX_DROPDOWN_OPTIONS < results.length then results.take MAX_DROPDOWN_OPTIONS
  else results

/-! ## The detail-collection loop of `run_interaction` (discord.rs lines 509-592)

The borrowed state of one iteration is the current `additional_details`
vector; the inbound datum is one `MessageComponentData`.  The Rust code uses
`expect` four times and a bounds-panicking `Vec::remove`; every such panic is
modelled as `none`. -/

/-- Whether `sub` occurs at the very front of `s`. -/
def startsAt : List Char → List Char → Bool
  | [], _ => true
  | _ :: _, [] => false
  | a :: as, b :: bs => a == b && startsAt as bs

/-- Character-level worker for `splitOnce`. -/
def splitOnceChars : List Char → Option (List Char × List Char)
  | [] => none
  | c :: rest =>
    if c = ':' then some ([], rest)
    else (splitOnceChars rest).map (fun p => (c :: p.1, p.2))

/-- Rust's `str::split_once(":")`: `none` when no colon occurs, otherwise the
text before the first colon and the text after it. -/
def splitOnce (s : String) : Option (String × String) :=
  (splitOnceChars s.data).map (fun p => (String.mk p.1, String.mk p.2))

/-- The numeric value of an ASCII digit. -/
def digitVal (c : Char) : Option Nat :=
  if '0' ≤ c ∧ c ≤ '9' then some (c.toNat - '0'.toNat) else none

/-- Accumulating worker for `parseUsize`. -/
def parseDigits : List Char → Nat → Option Nat
  | [], acc => some acc
  | c :: rest, acc =>
    match digitVal c with
    | none => none
    | some d => parseDigits rest (acc * 10 + d)

/-- Rust's `str::parse::<usize>()`: an optional leading `+`, then one or more
ASCII digits.  The value is a `Nat`; overflow of `usize` is not modelled, the
indices in play being tiny. -/
def parseUsize (s : String) : Option Nat :=
  match s.data with
  | [] => none
  | '+' :: rest => if rest = [] then none else parseDigits rest 0
  | l => parseDigits l 0

/-- Rust's `str::starts_with(pat)`. -/
def rustStartsWith (s pat : String) : Bool :=
  startsAt pat.data s.data

/-- The field-selection branch of the loop (discord.rs lines 544-568):
read the first value, parse it as an index, split the custom id to recover
the field title, locate the addressed detail by title, remove the chosen
option (panicking when the index is out of bounds) and replace the detail's
option list with exactly that option.  `none` models a panic of the session's
task. -/
def processSelection (details : List RequestDetails) (ev : MessageComponentData) :
    Option (List RequestDetails) :=
  match ev.values.head? with
  | none => none
  | some v =>
    match parseUsize v with
    | none => none
    | some option_idx =>
      match splitOnce ev.custom_id with
      | none => none
      | some (title, _) =>
        match details.findIdx? (fun d => d.title == title) with
        | none => none
        | some detail_idx =>
          match details.get? detail_idx with
          | none => none
          | some d =>
            match d.options.get? option_idx with
            | none => none
            | some selected_option =>
              some (details.set detail_idx { d with options := [selected_option] })

/-- The validity condition on a continuation event under which the
field-selection branch does not hit any of its panicking operations: a first
value exists and parses, the custom id splits, a detail with the addressed
title exists, and the parsed index is within that detail's option list. -/
def validContinuation (details : List RequestDetails) (ev : MessageComponentData) : Bool :=
  match ev.values.head? with
  | none => false
  | some v =>
    match parseUsize v with
    | none => false
    | some option_idx =>
      match splitOnce ev.custom_id with
      | none => false
      | some (title, _) =>
        match details.findIdx? (fun d => d.title == title) with
        | none => false
        | some detail_idx =>
          match details.get? detail_idx with
          | none => false
          | some d => option_idx < d.options.length

/-- Outcome of one iteration of the collection loop. -/
inductive LoopStep where
  | submitted (details : List RequestDetails)
  | rerender (details : List RequestDetails)
  | panicked
deriving DecidableEq, Repr

/-- One iteration of the collection loop (discord.rs lines 509-592): an event
whose custom id has the `request:` marker breaks out to submission with the
details as they stand, and any other event goes through the field-selection
branch and triggers a re-render. -/
def loopBody (details : List RequestDetails) (ev : MessageComponentData) : LoopStep :=
  if rustStartsWith ev.custom_id "request:" then .submitted details
  else
    match processSelection details ev with
    | some details2 => .rerender details2
    | none => .panicked

/-! ## Description truncation in `build_request_component`
(discord.rs lines 237-263, both the thumbnail and the plain branch run the
same code on `display_info.description`) -/

/-- Rust's `str::len`: the number of UTF-8 bytes of the string. -/
def byteLen (s : List Char) : Nat :=
  (s.map Char.utf8Size).sum

/-- Rust's byte slice `&s[..k]`: the characters making up the first `k`
bytes, or `none` (a panic) when `k` lands strictly inside a multi-byte
character. -/
def byteTake : List Char → Nat → Option (List Char)
  | _, 0 => some []
  | [], _ + 1 => none
  | c :: s, k + 1 =>
    if c.utf8Size ≤ k + 1 then (byteTake s (k + 1 - c.utf8Size)).map (fun t => c :: t)
    else none

/-- The truncation applied to a description: descriptions longer than
`MAX_TEXT_CONTENT_LENGTH` bytes are replaced by their first
`MAX_TEXT_CONTENT_LENGTH - 3` bytes followed by `...`; shorter ones are
cloned unchanged.  `none` models the byte-slice panic. -/
def truncateDescription (description : List Char) : Option (List Char) :=
  if MAX_TEXT_CONTENT_LENGTH < byteLen description then
    (byteTake description (MAX_TEXT_CONTENT_LENGTH - 3)).map (fun t => t ++ "...".data)
  else some description

/-! ## Error sanitization (src/doplarr/src/main.rs, `user_facing_error`) -/

/-- Whether `sub` occurs contiguously anywhere inside `s`. -/
def occursIn (sub : List Char) : List Char → Bool
  | [] => startsAt sub []
  | c :: s => startsAt sub (c :: s) || occursIn sub s

/-- Rust's `str::contains(pat)` on an already-lowercased haystack. -/
def containsSub (haystack sub : String) : Bool :=
  occursIn sub.data haystack.data

/-- Sanitized message for timeout-like backend errors (main.rs line 29). -/
def MSG_TIMEOUT : String :=
  "Request timed out. The backend server may be slow or unavailable."

/-- Sanitized message for connectivity-like backend errors (main.rs line 31). -/
def MSG_CONNECT : String :=
  "Could not connect to the backend server. Please try again later."

/-- Sanitized message for authorization-like backend errors (main.rs line 37). -/
def MSG_AUTH : String :=
  "Backend authentication error. Please contact your administrator."

/-- Sanitized message for server-error-like backend errors (main.rs line 39). -/
def MSG_SERVER : String :=
  "The backend server encountered an error. Please try again later."

/-- Generic sanitized fallback message (main.rs line 42). -/
def MSG_GENERIC : String :=
  "An error occurred while processing your request. Please try again or contact your administrator."

/-- The fixed set of user-facing error strings. -/
def sanitizedMessages : List String :=
  [MSG_TIMEOUT, MSG_CONNECT, MSG_AUTH, MSG_SERVER, MSG_GENERIC]

/-- `user_facing_error` (main.rs lines 24-44): the error's display text is
lowercased and matched against substring categories; the returned message is
always one of five static strings. -/
def user_facing_error (err : String) : String :=
  let err_msg := err.toLower
  if containsSub err_msg "timeout" || containsSub err_msg "timed out" then
    MSG_TIMEOUT
  else if containsSub err_msg "connection" || containsSub err_msg "connect" then
    MSG_CONNECT
  else if containsSub err_msg "401" || containsSub err_msg "403" ||
      containsSub err_msg "unauthorized" || containsSub err_msg "forbidden" then
    MSG_AUTH
  else if containsSub err_msg "500" || containsSub err_msg "502" ||
      containsSub err_msg "503" then
    MSG_SERVER
  else
    MSG_GENERIC

/-! ## Session registry and per-session channel (main.rs)

The registry is `HashMap<Uuid, (Sender, Instant)>` behind a mutex; sessions
are keyed by a freshly generated uuid.  An association list keyed by `Nat`
models the map (uuids are opaque tokens; only equality is used).  The
channel is `mpsc::channel(1)`: a single-slot buffer, modelled as
`Option MessageComponentData`, so that at most one event is ever pending by
construction. -/

/-- One session's single-slot inbound buffer: the pending event, if any. -/
def ChannelBuf : Type := Option MessageComponentData

/-- The registry map from session uuid to its channel state. -/
def Registry : Type := List (Nat × ChannelBuf)

/-- `HashMap::get` keyed by uuid. -/
def lookupReg (reg : Registry) (uuid : Nat) : Option ChannelBuf :=
  (reg.find? (fun p => p.1 == uuid)).map Prod.snd

/-- `HashMap::remove` keyed by uuid (main.rs lines 300, 342): drops every
entry under the key. -/
def removeReg (reg : Registry) (uuid : Nat) : Registry :=
  reg.filter (fun p => p.1 != uuid)

/-- Writes the given session's buffer back into the map. -/
def updateReg (reg : Registry) (uuid : Nat) (buf : ChannelBuf) : Registry :=
  reg.map (fun p => if p.1 == uuid then (p.1, buf) else p)

/-- `Sender::try_send` on a capacity-one channel (main.rs line 326): succeeds
with the event stored when the slot is free, fails immediately leaving the
buffer untouched when an event is already pending. -/
def try_send (buf : ChannelBuf) (ev : MessageComponentData) :
    Except Unit ChannelBuf :=
  match buf with
  | none => Except.ok (some ev)
  | some _ => Except.error ()

/-- What the dispatcher does with one continuation event. -/
inductive DispatchResult where
  | sent
  | timeoutNotice
deriving DecidableEq, Repr

/-- The dispatcher's continuation handling (main.rs lines 305-361): look the
uuid up; with no live entry render a timeout notice and leave the map alone;
with a live entry attempt a non-blocking push, and on failure render a
timeout notice to the new sender and remove the session's entry immediately. -/
def dispatchContinuation (reg : Registry) (uuid : Nat) (ev : MessageComponentData) :
    Registry × DispatchResult :=
  match lookupReg reg uuid with
  | none => (reg, .timeoutNotice)
  | some buf =>
    match try_send buf ev with
    | Except.ok buf2 => (updateReg reg uuid buf2, .sent)
    | Except.error _ => (removeReg reg uuid, .timeoutNotice)

/-! ## Terminal outcomes and session cleanup (main.rs lines 270-302) -/

/-- The terminal outcomes of `run_interaction`: completion, no-results and
early-stop return `Ok(())`; a wait timeout, a closed channel and a backend
failure return `Err`.  The carried string is the error's display text. -/
inductive Terminal where
  | completed
  | noResults
  | earlyStopped
  | timedOut
  | failed (err : String)
deriving DecidableEq, Repr

/-- The `Result` value `run_interaction` hands back to the spawned wrapper
for each terminal outcome (discord.rs lines 417, 451, 472, 517, 599, 628). -/
def terminalResult : Terminal → Except String Unit
  | .completed => Except.ok ()
  | .noResults => Except.ok ()
  | .earlyStopped => Except.ok ()
  | .timedOut => Except.error "Timed out waiting for user selection"
  | .failed err => Except.error err

/-- The spawned wrapper around `run_interaction` (main.rs lines 270-302): on
an error result it shows the sanitized message to the user, and in every case
it then removes the session's entry from the registry.  Returns the new
registry and the ephemeral messages shown by the wrapper itself. -/
def sessionCleanup (t : Terminal) (reg : Registry) (uuid : Nat) :
    Registry × List String :=
  match terminalResult t with
  | Except.ok _ => (removeReg reg uuid, [])
  | Except.error e => (removeReg reg uuid, [user_facing_error e])

/-! ## Submission tail of `run_interaction` (discord.rs lines 597-625)
composed with the wrapper's error reporting (main.rs lines 274-297) -/

/-- The user-visible outputs of the submission phase. -/
inductive UiOut where
  | ephemeral (msg : String)
  | completion
  | publicBroadcast
deriving DecidableEq, Repr

/-- What the submission phase emits, given the backend `request` result and
the `public_followup` flag: on failure the error propagates to the wrapper,
which shows exactly one sanitized ephemeral message; on success a completion
message is shown and, when configured, a public success broadcast follows. -/
def submissionOutput (res : Except String Unit) (public_followup : Bool) :
    List UiOut :=
  match res with
  | Except.error e => [.ephemeral (user_facing_error e)]
  | Except.ok _ => [.completion] ++ (if public_followup then [.publicBroadcast] else [])

/-! ## The Radarr detail enumeration (src/doplarr/src/providers/radarr.rs)

`impl From<Details> for Vec<RequestDetails>` (radarr.rs lines 219-321) turns
the connect-time configuration into the request-detail collection handed to
the core by `additional_details`.  The resource name/path fields are doubly
optional in the generated API models and are unwrapped with `expect`;
`none` in the result models those panics.  The wire strings attached as
`SelectableId.String` come from the generated `radarr_api` crate's
serialization (not under src/) and are irrelevant to the claims here. -/

/-- A Radarr root folder resource, reduced to the fields the conversion
reads (`path` with the two option layers flattened, and `id`). -/
structure RootFolderResource where
  path : Option String
  id : Option Int
deriving DecidableEq, Repr

/-- A Radarr quality profile resource, reduced to the fields the conversion
reads (`name` with the two option layers flattened, and `id`). -/
structure QualityProfileResource where
  name : Option String
  id : Option Int
deriving DecidableEq, Repr

/-- Radarr monitor types (radarr_api `MonitorTypes`, the three variants the
conversion enumerates). -/
inductive MonitorTypes where
  | MovieAndCollection
  | MovieOnly
  | NoMonitor
deriving DecidableEq, Repr

/-- Movie status types (radarr_api `MovieStatusType`). -/
inductive MovieStatusType where
  | Tba
  | Announced
  | InCinemas
  | Released
  | Deleted
deriving DecidableEq, Repr

/-- Dropdown title for a monitor type (radarr.rs lines 267-271). -/
def monitorTitle : MonitorTypes → String
  | .MovieOnly => "Movie Only"
  | .MovieAndCollection => "Movie and Collection"
  | .NoMonitor => "None"

/-- Wire string of a monitor type (`Display` from the generated crate). -/
def monitorWire : MonitorTypes → String
  | .MovieOnly => "movieOnly"
  | .MovieAndCollection => "movieAndCollection"
  | .NoMonitor => "none"

/-- Dropdown title for a movie status type (radarr.rs lines 292-298). -/
def movieStatusTitle : MovieStatusType → String
  | .Announced => "Announced"
  | .InCinemas => "In Cinemas"
  | .Released => "Released"
  | .Tba => "To Be Announced"
  | .Deleted => "Deleted"

/-- Wire string of a movie status type (`Display` from the generated crate). -/
def movieStatusWire : MovieStatusType → String
  | .Announced => "announced"
  | .InCinemas => "inCinemas"
  | .Released => "released"
  | .Tba => "tba"
  | .Deleted => "deleted"

/-- The connect-time `Details` struct of the Radarr backend
(radarr.rs lines 50-55): whatever the server returned (possibly filtered to
a single configured choice by `Radarr::new`). -/
structure RadarrConfigDetails where
  rootfolders : List RootFolderResource
  quality_profiles : List QualityProfileResource
  monitor : List MonitorTypes
  minimum_availability : List MovieStatusType
deriving DecidableEq, Repr

/-- `From<Details> for Vec<RequestDetails>` (radarr.rs lines 219-321): one
`RequestDetails` per configurable dimension in the order root folder,
monitor, minimum availability, quality profile, each option list mapped
one-to-one from the configured resources.  `none` models the `expect`
panics on a missing profile name or folder path. -/
def radarrRequestDetails (details : RadarrConfigDetails) :
    Option (List RequestDetails) := do
  let quality_profile_options ← details.quality_profiles.mapM
    (fun x => x.name.map (fun n =>
      DropdownOption.mk n none (x.id.map SelectableId.Integer)))
  let rootfolder_options ← details.rootfolders.mapM
    (fun x => x.path.map (fun p =>
      DropdownOption.mk p none (x.id.map SelectableId.Integer)))
  let monitor_options := details.monitor.map
    (fun x => DropdownOption.mk (monitorTitle x) none
      (some (SelectableId.String (monitorWire x))))
  let availability_options := details.minimum_availability.map
    (fun x => DropdownOption.mk (movieStatusTitle x) none
      (some (SelectableId.String (movieStatusWire x))))
  some
    [ RequestDetails.mk "Root Folder" rootfolder_options
        (some "radarr:root_folder") .Dropdown,
      RequestDetails.mk "Monitor" monitor_options
        (some "radarr:monitor") .Dropdown,
      RequestDetails.mk "Minimum Availability" availability_options
        (some "radarr:availability") .Dropdown,
      RequestDetails.mk "Quality Profile" quality_profile_options
        (some "radarr:quality_profile") .Dropdown ]

/-! ## Concrete inputs used by the claim theorems and their witnesses -/

/-- A detail collection holding one detail with two options and no metadata
key: such a detail is skipped by the user-selectable filter. -/
def c1Details : List RequestDetails :=
  [RequestDetails.mk "Minimum Availability"
    [DropdownOption.mk "Announced" none none, DropdownOption.mk "Released" none none]
    none .Dropdown]

/-- A two-field collection with metadata keys: one user-selectable field and
one fixed default. -/
def c1wDetails : List RequestDetails :=
  [RequestDetails.mk "Quality Profile"
    [DropdownOption.mk "HD-1080p" none none, DropdownOption.mk "Ultra-HD" none none]
    (some "radarr:quality_profile") .Dropdown,
   RequestDetails.mk "Root Folder"
    [DropdownOption.mk "/movies" none none]
    (some "radarr:root_folder") .Dropdown]

/-- `c1wDetails` with its fields in the opposite order. -/
def c1wDetailsPerm : List RequestDetails :=
  [RequestDetails.mk "Root Folder"
    [DropdownOption.mk "/movies" none none]
    (some "radarr:root_folder") .Dropdown,
   RequestDetails.mk "Quality Profile"
    [DropdownOption.mk "HD-1080p" none none, DropdownOption.mk "Ultra-HD" none none]
    (some "radarr:quality_profile") .Dropdown]

/-- A collection in which a user-selectable detail still has two options. -/
def c2Details : List RequestDetails :=
  [RequestDetails.mk "Monitor"
    [DropdownOption.mk "Movie Only" none none,
     DropdownOption.mk "Movie and Collection" none none]
    (some "radarr:monitor") .Dropdown]

/-- A submit continuation: the Request button's custom id is
`request:{uuid}`. -/
def c2SubmitEvent : MessageComponentData :=
  MessageComponentData.mk "request:4cc19056" []

/-- A collection with one live two-option detail. -/
def c3Details : List RequestDetails :=
  [RequestDetails.mk "Quality Profile"
    [DropdownOption.mk "HD-1080p" none none, DropdownOption.mk "Ultra-HD" none none]
    (some "radarr:quality_profile") .Dropdown]

/-- A continuation addressing `Quality Profile` with index 5, outside its
two-element option list. -/
def c3BadIndexEvent : MessageComponentData :=
  MessageComponentData.mk "Quality Profile:4cc19056" ["5"]

/-- A continuation whose correlation id names a field with no matching live
entry in `c3Details`. -/
def c3BadFieldEvent : MessageComponentData :=
  MessageComponentData.mk "Season to Monitor:4cc19056" ["0"]

/-- A detail that had two options when first enumerated but carries no
metadata key. -/
def c4Field : RequestDetails :=
  RequestDetails.mk "Use Season Folders"
    [DropdownOption.mk "Yes" none none, DropdownOption.mk "No" none none]
    none .Boolean

/-- The one-field collection holding `c4Field`. -/
def c4Details : List RequestDetails :=
  [c4Field]

/-- Witness collection for the amended visibility rule: a two-option field
and a one-option fixed default, each with its metadata key. -/
def c4wDetails : List RequestDetails :=
  [RequestDetails.mk "Monitor"
    [DropdownOption.mk "All" none none, DropdownOption.mk "Pilot" none none]
    (some "sonarr:monitor") .Dropdown,
   RequestDetails.mk "Root Folder"
    [DropdownOption.mk "/tv" none none]
    (some "sonarr:root_folder") .Dropdown]

/-- The first field of `c4wDetails`. -/
def c4wMonitor : RequestDetails :=
  RequestDetails.mk "Monitor"
    [DropdownOption.mk "All" none none, DropdownOption.mk "Pilot" none none]
    (some "sonarr:monitor") .Dropdown

/-- The first field of `c4wDetails` after the user picked `Pilot`. -/
def c4wMonitorReduced : RequestDetails :=
  RequestDetails.mk "Monitor"
    [DropdownOption.mk "Pilot" none none]
    (some "sonarr:monitor") .Dropdown

/-- The second field of `c4wDetails`. -/
def c4wRoot : RequestDetails :=
  RequestDetails.mk "Root Folder"
    [DropdownOption.mk "/tv" none none]
    (some "sonarr:root_folder") .Dropdown

/-- The event pending in the session's single slot. -/
def c6Pending : MessageComponentData :=
  MessageComponentData.mk "result:4cc19056" ["0"]

/-- A second continuation arriving back-to-back for the same session. -/
def c6Event : MessageComponentData :=
  MessageComponentData.mk "result:4cc19056" ["1"]

/-- A registry holding one session whose channel slot is already full. -/
def c6Registry : Registry :=
  [(7, some c6Pending)]

/-- A Radarr configuration as returned by a server with one root folder and
no quality profiles configured. -/
def c8Config : RadarrConfigDetails :=
  RadarrConfigDetails.mk
    [RootFolderResource.mk (some "/movies") (some 1)]
    []
    [.MovieAndCollection, .MovieOnly, .NoMonitor]
    [.Tba, .Announced, .InCinemas, .Released, .Deleted]

/-- The detail collection `radarrRequestDetails` enumerates for `c8Config`:
the quality profile detail comes out with an empty option list. -/
def c8EnumeratedDetails : List RequestDetails :=
  [ RequestDetails.mk "Root Folder"
      [DropdownOption.mk "/movies" none (some (SelectableId.Integer 1))]
      (some "radarr:root_folder") .Dropdown,
    RequestDetails.mk "Monitor"
      [DropdownOption.mk "Movie and Collection" none
        (some (SelectableId.String "movieAndCollection")),
       DropdownOption.mk "Movie Only" none (some (SelectableId.String "movieOnly")),
       DropdownOption.mk "None" none (some (SelectableId.String "none"))]
      (some "radarr:monitor") .Dropdown,
    RequestDetails.mk "Minimum Availability"
      [DropdownOption.mk "To Be Announced" none (some (SelectableId.String "tba")),
       DropdownOption.mk "Announced" none (some (SelectableId.String "announced")),
       DropdownOption.mk "In Cinemas" none (some (SelectableId.String "inCinemas")),
       DropdownOption.mk "Released" none (some (SelectableId.String "released")),
       DropdownOption.mk "Deleted" none (some (SelectableId.String "deleted"))]
      (some "radarr:availability") .Dropdown,
    RequestDetails.mk "Quality Profile" []
      (some "radarr:quality_profile") .Dropdown ]

/-- A collection with one live two-option detail, for the destructive
selection step. -/
def c8SelDetails : List RequestDetails :=
  [RequestDetails.mk "Monitor"
    [DropdownOption.mk "Movie Only" none none,
     DropdownOption.mk "Movie and Collection" none none]
    (some "radarr:monitor") .Dropdown]

/-- A field-selection continuation picking index 1 of the `Monitor` field. -/
def c8SelEvent : MessageComponentData :=
  MessageComponentData.mk "Monitor:4cc19056" ["1"]

/-- The state after `c8SelEvent` is processed against `c8SelDetails`. -/
def c8SelResult : List RequestDetails :=
  [RequestDetails.mk "Monitor"
    [DropdownOption.mk "Movie and Collection" none none]
    (some "radarr:monitor") .Dropdown]

/-- A 4002-byte description: 3996 one-byte characters followed by three
two-byte characters, so byte 3997 falls strictly inside a character. -/
def c10BadDescription : List Char :=
  List.replicate 3996 'a' ++ List.replicate 3 'é'

/-! ## Helper lemmas -/

/-- Looking a session up after its entry was removed finds nothing. -/
theorem lookupReg_removeReg (reg : Registry) (uuid : Nat) :
    lookupReg (removeReg reg uuid) uuid = none := by
  unfold lookupReg removeReg
  have h : List.find? (fun p => p.1 == uuid) (reg.filter (fun p => p.1 != uuid)) = none := by
    rw [List.find?_eq_none]
    intro x hx
    have hmem := (List.mem_filter.mp hx).2
    simp only [bne_iff_ne, ne_eq, decide_eq_true_eq] at hmem
    simp [hmem]
  rw [h]
  rfl

/-- Removing a session's entry twice is the same as removing it once. -/
theorem removeReg_idem (reg : Registry) (uuid : Nat) :
    removeReg (removeReg reg uuid) uuid = removeReg reg uuid := by
  unfold removeReg
  induction reg with
  | nil => rfl
  | cons p l ih =>
    by_cases h : p.1 = uuid
    · simp [List.filter_cons, h, ih]
    · simp [List.filter_cons, h, ih]

/-! ## Claim theorems -/

/-- Claim C9: `run_interaction` truncates any result list longer than 25 to
exactly its first 25 items, in provider order with no reordering (the result
is the 25-prefix and gluing the dropped suffix back yields the original
list); with the hypothesis instantiated at size 30 the witness below gives
exactly the first 25 items. -/
theorem C9_truncation {α : Type} (results : List α)
    (h : MAX_DROPDOWN_OPTIONS < results.length) :
    truncateResults results = results.take 25 ∧
      (truncateResults results).length = 25 ∧
      results.take 25 ++ results.drop 25 = results := by
  have h25 : 25 < results.length := h
  unfold truncateResults MAX_DROPDOWN_OPTIONS
  rw [if_pos h25]
  refine ⟨rfl, ?_, List.take_append_drop _ _⟩
  rw [List.length_take]
  omega

/-- Witness for C9 at a concrete 30-element result list. -/
theorem C9_truncation_witness :
    MAX_DROPDOWN_OPTIONS < (List.range 30).length ∧
      (truncateResults (List.range 30) = (List.range 30).take 25 ∧
        (truncateResults (List.range 30)).length = 25 ∧
        (List.range 30).take 25 ++ (List.range 30).drop 25 = List.range 30) :=
  ⟨by decide, C9_truncation (List.range 30) (by decide)⟩

/-- Claim C5: for every terminal outcome of `run_interaction`, the spawned
wrapper removes the session's entry from the registry (the uuid is no longer
found), and removal is idempotent, so the entry is removed exactly once even
when several cleanup paths run. -/
theorem C5_registry_cleanup (t : Terminal) (reg : Registry) (uuid : Nat) :
    lookupReg (sessionCleanup t reg uuid).1 uuid = none ∧
      removeReg (removeReg reg uuid) uuid = removeReg reg uuid := by
  refine ⟨?_, removeReg_idem reg uuid⟩
  have h : (sessionCleanup t reg uuid).1 = removeReg reg uuid := by
    cases t <;> simp [sessionCleanup, terminalResult]
  rw [h]
  exact lookupReg_removeReg reg uuid

/-- Claim C7: when the backend submission fails, exactly one ephemeral
message is shown, it is one of the five fixed sanitized strings (so it never
carries the raw error text), and no public success broadcast is emitted. -/
theorem C7_sanitized_errors (e : String) (public_followup : Bool) :
    submissionOutput (Except.error e) public_followup =
        [UiOut.ephemeral (user_facing_error e)] ∧
      user_facing_error e ∈ sanitizedMessages ∧
      UiOut.publicBroadcast ∉ submissionOutput (Except.error e) public_followup := by
  refine ⟨rfl, ?_, by simp [submissionOutput]⟩
  unfold user_facing_error
  dsimp only
  split
  · simp [sanitizedMessages]
  split
  · simp [sanitizedMessages]
  split
  · simp [sanitizedMessages]
  split
  · simp [sanitizedMessages]
  · simp [sanitizedMessages]

/-- Claim C6: a session's channel holds at most one pending event (the first
push into a free slot succeeds and fills it; a push into a full slot fails
immediately, leaving nothing queued), and on a failed push the dispatcher
renders a timeout notice to the new sender and removes the session's
registry entry immediately. -/
theorem C6_channel_capacity (reg : Registry) (uuid : Nat)
    (ev pending : MessageComponentData)
    (h : lookupReg reg uuid = some (some pending)) :
    try_send (some pending) ev = Except.error () ∧
      (∀ ev2 : MessageComponentData,
        try_send (none : ChannelBuf) ev2 = Except.ok (some ev2)) ∧
      dispatchContinuation reg uuid ev = (removeReg reg uuid, .timeoutNotice) := by
  refine ⟨rfl, fun _ => rfl, ?_⟩
  simp [dispatchContinuation, h, try_send]

/-- Witness for C6 at a concrete one-session registry with a full slot. -/
theorem C6_channel_capacity_witness :
    lookupReg c6Registry 7 = some (some c6Pending) ∧
      (try_send (some c6Pending) c6Event = Except.error () ∧
        (∀ ev2 : MessageComponentData,
          try_send (none : ChannelBuf) ev2 = Except.ok (some ev2)) ∧
        dispatchContinuation c6Registry 7 c6Event =
          (removeReg c6Registry 7, .timeoutNotice)) :=
  ⟨rfl, C6_channel_capacity c6Registry 7 c6Event c6Pending rfl⟩

/-- Claim C2, counterexample: with a user-selectable detail still holding two
options (so the rendered submit action is disabled), a submit continuation is
nonetheless accepted and the loop proceeds to submission. -/
theorem C2_counterexample :
    loopBody c2Details c2SubmitEvent = LoopStep.submitted c2Details ∧
      (∃ d ∈ c2Details, 1 < d.options.length) ∧
      submitEnabled (selectableFields c2Details) c2Details = false := by
  decide

/-- Claim C2 as amended: the collection loop accepts a submit continuation
(custom id starting with `request:`) in every state, breaking to submission
with the details as they stand; no resolution check guards the break — the
only guard is that rendering disables the button while selections remain. -/
theorem C2_amended (details : List RequestDetails) (ev : MessageComponentData)
    (h : rustStartsWith ev.custom_id "request:" = true) :
    loopBody details ev = LoopStep.submitted details := by
  simp [loopBody, h]

/-- Witness for the amended C2 at a concrete unresolved state. -/
theorem C2_amended_witness :
    rustStartsWith c2SubmitEvent.custom_id "request:" = true ∧
      loopBody c2Details c2SubmitEvent = LoopStep.submitted c2Details :=
  ⟨by decide, C2_amended c2Details c2SubmitEvent (by decide)⟩

/-- Claim C1, counterexample: a collection whose single detail has two
options but no metadata key.  `run_interaction` computes an empty
user-selectable set for it, so `build_request_component` leaves the submit
button enabled even though not every detail has exactly one option. -/
theorem C1_counterexample :
    submitEnabled (selectableFields c1Details) c1Details = true ∧
      ¬ (∀ d ∈ c1Details, d.options.length = 1) := by
  decide

/-- Claim C1 as amended: the submit action is enabled iff every detail that
is user-selectable (metadata key present and in the given set) has at most
one option; details outside the user-selectable set never disable it.  The
criterion depends only on the current collection, so it is stable under
every permutation of the resolution order. -/
theorem C1_amended (fields : List String) (details : List RequestDetails) :
    (submitEnabled fields details = true ↔
      ∀ d ∈ details, isUserSelectable fields d = true → d.options.length ≤ 1) ∧
    ∀ details2, List.Perm details details2 →
      submitEnabled fields details = submitEnabled fields details2 := by
  constructor
  · simp only [submitEnabled, selectionsRemaining, Bool.not_eq_true',
      List.any_eq_false, Bool.and_eq_true, decide_eq_true_eq, not_and, not_lt]
  · intro details2 hp
    have hany : ∀ f : RequestDetails → Bool, details.any f = details2.any f := by
      intro f
      rw [Bool.eq_iff_iff, List.any_eq_true, List.any_eq_true]
      constructor
      · rintro ⟨x, hx, hfx⟩
        exact ⟨x, hp.mem_iff.mp hx, hfx⟩
      · rintro ⟨x, hx, hfx⟩
        exact ⟨x, hp.mem_iff.mpr hx, hfx⟩
    simp [submitEnabled, selectionsRemaining, hany]

/-- Witness for the amended C1: a two-field collection, its reversal, and
the enablement criterion evaluated through the theorem. -/
theorem C1_amended_witness :
    (submitEnabled ["radarr:quality_profile"] c1wDetails = true ↔
      ∀ d ∈ c1wDetails, isUserSelectable ["radarr:quality_profile"] d = true →
        d.options.length ≤ 1) ∧
    List.Perm c1wDetails c1wDetailsPerm ∧
    submitEnabled ["radarr:quality_profile"] c1wDetails =
      submitEnabled ["radarr:quality_profile"] c1wDetailsPerm :=
  ⟨(C1_amended ["radarr:quality_profile"] c1wDetails).1, by decide,
    (C1_amended ["radarr:quality_profile"] c1wDetails).2 c1wDetailsPerm (by decide)⟩

/-- Claim C3, counterexample: a continuation carrying an index outside the
addressed field's option list, and one naming a field with no live entry,
each make the field-selection branch panic (modelled by `none`) instead of
being ignored or re-rendered. -/
theorem C3_counterexample :
    processSelection c3Details c3BadIndexEvent = none ∧
      processSelection c3Details c3BadFieldEvent = none := by
  decide

/-- Claim C3 as amended: the field-selection branch panics (crashing the
session's task) precisely on invalid continuations — a missing or
unparseable value, an unsplittable custom id, a correlation id naming no
live field, or an index outside the addressed field's option list; it does
not ignore them. -/
theorem C3_amended (details : List RequestDetails) (ev : MessageComponentData) :
    processSelection details ev = none ↔ validContinuation details ev = false := by
  unfold processSelection validContinuation
  repeat' split
  all_goals simp_all [List.getElem?_eq_some, List.getElem?_eq_none_iff, Nat.not_lt]
  all_goals
    rename_i hexists
    exact hexists.choose

/-- Claim C4, counterexample: a detail that had two options when first
enumerated but carries no metadata key is not rendered as a chooser — the
user-selectable set only collects metadata keys, so the field is hidden
entirely. -/
theorem C4_counterexample :
    c4Field ∈ c4Details ∧ 1 < c4Field.options.length ∧
      renderField (selectableFields c4Details) c4Field = FieldRender.hidden := by
  decide

/-- Claim C4 as amended: over collections whose metadata keys are distinct
and present, the fixed set computed before any reduction makes a field with
more than one option at creation render as a chooser while unresolved and as
completed text once reduced to one option, and a field with exactly one
option at creation never render as a chooser, whatever later reductions
happen. -/
theorem C4_amended (details0 : List RequestDetails)
    (hinj : ∀ d1 ∈ details0, ∀ d2 ∈ details0,
      d1.metadata ≠ none → d1.metadata = d2.metadata → d1 = d2) :
    (∀ d ∈ details0, 1 < d.options.length → ∀ k, d.metadata = some k →
      renderField (selectableFields details0) d = FieldRender.chooser) ∧
    (∀ d ∈ details0, 1 < d.options.length → ∀ k, d.metadata = some k →
      ∀ d2 : RequestDetails, d2.metadata = some k → d2.options.length = 1 →
        renderField (selectableFields details0) d2 = FieldRender.completedText) ∧
    (∀ d ∈ details0, d.options.length = 1 → ∀ k, d.metadata = some k →
      ∀ d2 : RequestDetails, d2.metadata = some k →
        renderField (selectableFields details0) d2 ≠ FieldRender.chooser) := by
  have hmemS : ∀ k : String, k ∈ selectableFields details0 ↔
      ∃ d ∈ details0, 1 < d.options.length ∧ d.metadata = some k := by
    intro k
    unfold selectableFields
    simp only [List.mem_filterMap, List.mem_filter, decide_eq_true_eq]
    constructor
    · rintro ⟨a, ⟨ha, hl⟩, hm⟩
      exact ⟨a, ha, hl, hm⟩
    · rintro ⟨a, ha, hl, hm⟩
      exact ⟨a, ⟨ha, hl⟩, hm⟩
  have hsel : ∀ (d2 : RequestDetails) (k : String), d2.metadata = some k →
      (isUserSelectable (selectableFields details0) d2 = true ↔
        k ∈ selectableFields details0) := by
    intro d2 k hm
    unfold isUserSelectable
    rw [hm]
    exact List.elem_iff
  refine ⟨?_, ?_, ?_⟩
  · intro d hd hl k hk
    have hkS : k ∈ selectableFields details0 := (hmemS k).mpr ⟨d, hd, hl, hk⟩
    have hIs : isUserSelectable (selectableFields details0) d = true :=
      (hsel d k hk).mpr hkS
    simp [renderField, hIs, hl]
  · intro d hd hl k hk d2 h2m h2len
    have hkS : k ∈ selectableFields details0 := (hmemS k).mpr ⟨d, hd, hl, hk⟩
    have hIs : isUserSelectable (selectableFields details0) d2 = true :=
      (hsel d2 k h2m).mpr hkS
    simp [renderField, hIs, h2len]
  · intro d hd hl1 k hk d2 h2m
    have hkNS : k ∉ selectableFields details0 := by
      intro hkS
      obtain ⟨d3, hd3, hl3, hm3⟩ := (hmemS k).mp hkS
      have heq : d3 = d := hinj d3 hd3 d hd (by simp [hm3]) (by rw [hm3, hk])
      rw [heq] at hl3
      omega
    have hIs : isUserSelectable (selectableFields details0) d2 = false := by
      cases h : isUserSelectable (selectableFields details0) d2
      · rfl
      · exact absurd ((hsel d2 k h2m).mp h) hkNS
    simp [renderField, hIs]

/-- Witness for the amended C4 at a concrete two-field collection. -/
theorem C4_amended_witness :
    (∀ d1 ∈ c4wDetails, ∀ d2 ∈ c4wDetails,
      d1.metadata ≠ none → d1.metadata = d2.metadata → d1 = d2) ∧
    renderField (selectableFields c4wDetails) c4wMonitor = FieldRender.chooser ∧
    renderField (selectableFields c4wDetails) c4wMonitorReduced =
      FieldRender.completedText ∧
    renderField (selectableFields c4wDetails) c4wRoot ≠ FieldRender.chooser := by
  have h := C4_amended c4wDetails (by decide)
  exact ⟨by decide,
    h.1 c4wMonitor (by decide) (by decide) "sonarr:monitor" rfl,
    h.2.1 c4wMonitor (by decide) (by decide) "sonarr:monitor" rfl
      c4wMonitorReduced rfl (by decide),
    h.2.2 c4wRoot (by decide) (by decide) "sonarr:root_folder" rfl c4wRoot rfl⟩

/-- Claim C8, counterexample: a Radarr server configured with no quality
profiles makes the detail enumeration construct a `RequestDetails` with an
empty option list, which `additional_details` hands to the core unchanged —
zero-option details can be constructed and observed. -/
theorem C8_counterexample :
    radarrRequestDetails c8Config = some c8EnumeratedDetails ∧
      ∃ d ∈ c8EnumeratedDetails, d.options = [] := by
  decide

/-- Claim C8 as amended: processing a field-selection event is destructive —
the addressed field's option list is replaced by exactly the single chosen
option (which was one of its live options) — and the step preserves
non-emptiness: when every detail entering the step has a non-empty option
list, so does every detail after it.  Non-emptiness at construction,
however, is not enforced by the code (see the counterexample). -/
theorem C8_amended (details details2 : List RequestDetails)
    (ev : MessageComponentData)
    (h : processSelection details ev = some details2)
    (hne : ∀ d ∈ details, d.options ≠ []) :
    (∀ d2 ∈ details2, d2.options ≠ []) ∧
    ∃ j d selected, details.get? j = some d ∧ selected ∈ d.options ∧
      details2 = details.set j { d with options := [selected] } := by
  unfold processSelection at h
  repeat' split at h
  all_goals simp at h
  rename_i x2 j heq2 x1 d heq1 x0 sel heq0
  subst h
  constructor
  · intro d2 hd2
    rcases List.mem_or_eq_of_mem_set hd2 with hmem | heq
    · exact hne d2 hmem
    · rw [heq]
      simp
  · exact ⟨j, d, sel, heq1, List.get?_mem heq0, rfl⟩

/-- Witness for the amended C8 at a concrete selection. -/
theorem C8_amended_witness :
    processSelection c8SelDetails c8SelEvent = some c8SelResult ∧
      (∀ d ∈ c8SelDetails, d.options ≠ []) ∧
      ((∀ d2 ∈ c8SelResult, d2.options ≠ []) ∧
        ∃ j d selected, c8SelDetails.get? j = some d ∧ selected ∈ d.options ∧
          c8SelResult = c8SelDetails.set j { d with options := [selected] }) :=
  ⟨by decide, by decide,
    C8_amended c8SelDetails c8SelResult c8SelEvent (by decide) (by decide)⟩

/-- Byte length distributes over concatenation. -/
theorem byteLen_append (s t : List Char) :
    byteLen (s ++ t) = byteLen s + byteLen t := by
  simp [byteLen]

/-- Byte length of a repeated character. -/
theorem byteLen_replicate (n : Nat) (c : Char) :
    byteLen (List.replicate n c) = n * c.utf8Size := by
  simp [byteLen, List.map_replicate, List.sum_replicate, smul_eq_mul]

/-- Slicing a block of one-byte characters followed by `rest` at a byte
index that lands `m` bytes into `rest` reduces to slicing `rest` at `m`. -/
theorem byteTake_replicate_size_one (n : Nat) (c : Char) (hc : c.utf8Size = 1)
    (rest : List Char) (m : Nat) (hm : 0 < m) :
    byteTake (List.replicate n c ++ rest) (n + m) =
      (byteTake rest m).map (fun t => List.replicate n c ++ t) := by
  induction n with
  | zero =>
    simp
  | succ k ih =>
    have harith : (k + 1) + m = (k + m) + 1 := by omega
    rw [List.replicate_succ, List.cons_append, harith]
    have hstep : byteTake (c :: (List.replicate k c ++ rest)) ((k + m) + 1) =
        if c.utf8Size ≤ (k + m) + 1 then
          (byteTake (List.replicate k c ++ rest) ((k + m) + 1 - c.utf8Size)).map
            (fun t => c :: t)
        else none := rfl
    rw [hstep, hc, if_pos (by omega), Nat.succ_sub_one, ih]
    rw [Option.map_map]
    rfl

/-- Claim C10 (code bug): the description truncation of
`build_request_component` is not total — on a description of 4002 bytes
whose byte 3997 falls inside a multi-byte character, the byte slice
`&description[..3997]` panics (modelled by `none`) instead of producing a
truncated description. -/
theorem C10_truncation_panic :
    truncateDescription c10BadDescription = none ∧
      byteLen c10BadDescription = 4002 := by
  have ha : ('a').utf8Size = 1 := by decide
  have he : ('é').utf8Size = 2 := by decide
  have hlen : byteLen c10BadDescription = 4002 := by
    unfold c10BadDescription
    rw [byteLen_append, byteLen_replicate, byteLen_replicate, ha, he]
  refine ⟨?_, hlen⟩
  unfold truncateDescription
  rw [hlen, if_pos (by norm_num [MAX_TEXT_CONTENT_LENGTH])]
  have h1 : MAX_TEXT_CONTENT_LENGTH - 3 = 3996 + 1 := by
    norm_num [MAX_TEXT_CONTENT_LENGTH]
  have hsplit : byteTake c10BadDescription (MAX_TEXT_CONTENT_LENGTH - 3) = none := by
    rw [h1]
    unfold c10BadDescription
    rw [byteTake_replicate_size_one 3996 'a' ha _ 1 (by norm_num)]
    rw [show byteTake (List.replicate 3 'é') 1 = none from by decide]
    rfl
  rw [hsplit]
  rfl

end Doplarr
